import Mathlib

/-!
# IndianPenolCode-app: the chat client and the asset generator

A shallow embedding of `mobile-app/App.js` (the `sendMessage` handler of the
chat screen) and of `mobile-app/generate-icon.js` (the drawing calls of
`generateIcon` and `generateSplash`), with the properties of the written
specification stated and settled over them.

Conventions of the embedding

* JavaScript strings are Lean strings (sequences of Unicode scalar values).
* Clock readings (`Date.now()`, `new Date()`) are natural numbers of
  milliseconds, handed to the handler as arguments.
* The handler reads the state cells `inputText` and `isLoading` of the render
  it belongs to and updates `messages` through `setMessages(prev => ...)`;
  the embedding passes that state in and returns the state after the updates.
* The two awaited operations of `sendMessage` are represented by their
  outcome (`FetchOutcome`), handed to the part of the handler that runs after
  them.
* Of `generateIcon` and `generateSplash` the calls on the 2D context are
  embedded; creating the canvas and writing the PNG file are left out.
* Canvas coordinates are rational numbers: the products and quotients of the
  drawing code are computed exactly.
-/

namespace IPC

/-! ## JavaScript values -/

/-- A JavaScript number: a finite double `(-1)^negative * mantissa * 2^exponent`,
an infinity, or NaN. -/
inductive JSNumber where
  | finite (negative : Bool) (mantissa : Nat) (exponent : Int)
  | infinity (negative : Bool)
  | nan
  deriving Repr

/-- A JavaScript value of the kinds `JSON.parse` can produce, together with
`undefined` (the result of reading a property that is not there). The members
of an object are kept in the order of the JSON text. -/
inductive JSValue where
  | undefined
  | null
  | bool (b : Bool)
  | number (n : JSNumber)
  | string (s : String)
  | array (items : List JSValue)
  | object (members : List (String × JSValue))

/-- The errors a run of `sendMessage` can meet. -/
inductive JSError where
  | networkError
  | syntaxError
  | typeError
  deriving DecidableEq, Repr

/-- ToBoolean of a number: `+0`, `-0` and NaN are falsy. -/
def JSNumber.truthy : JSNumber → Bool
  | .finite _ m _ => m != 0
  | .infinity _ => true
  | .nan => false

/-- ToBoolean, the test the `||` operator applies to its left operand. -/
def JSValue.truthy : JSValue → Bool
  | .undefined => false
  | .null => false
  | .bool b => b
  | .number n => n.truthy
  | .string s => s != ""
  | .array _ => true
  | .object _ => true

/-- The value of the last member called `key` in the member list of an object
(`JSON.parse` keeps the last of duplicate keys), `undefined` when there is none. -/
def lookupMember (key : String) (members : List (String × JSValue)) : JSValue :=
  match members.reverse.find? (fun kv => kv.1 == key) with
  | some kv => kv.2
  | none => .undefined

/-- The property read `data.key` for a key that is not a built-in property
(`answer`, `error`): a TypeError on `null` and `undefined`, the member of an
object, `undefined` on every other value. -/
def getProp (data : JSValue) (key : String) : Except JSError JSValue :=
  match data with
  | .undefined => .error .typeError
  | .null => .error .typeError
  | .object members => .ok (lookupMember key members)
  | _ => .ok .undefined

/-- The operator `a || b` on values already computed. -/
def jsOr (a b : JSValue) : JSValue :=
  if a.truthy then a else b

/-! ## String.prototype.trim -/

/-- The code points `trim` strips: WhiteSpace (TAB, VT, FF, ZWNBSP and the
space separators) and LineTerminator (LF, CR, LS, PS). -/
def isJSWhiteSpace (c : Char) : Bool :=
  let n := c.toNat
  n == 0x09 || n == 0x0A || n == 0x0B || n == 0x0C || n == 0x0D || n == 0x20 ||
  n == 0xA0 || n == 0x1680 || (0x2000 ≤ n && n ≤ 0x200A) || n == 0x2028 ||
  n == 0x2029 || n == 0x202F || n == 0x205F || n == 0x3000 || n == 0xFEFF

/-- The method `trim`: the string without its leading and trailing white space. -/
def jsTrim (s : String) : String :=
  String.mk ((s.toList.dropWhile isJSWhiteSpace).rdropWhile isJSWhiteSpace)

/-! ## The state of the chat screen -/

/-- The field `sender` of a message. -/
inductive Sender where
  | user
  | bot
  deriving DecidableEq, Repr

/-- A message of the list: `{ id, text, sender, timestamp }`. The text of a
bot message is whatever value the expression of line 60 yields. -/
structure Message where
  id : String
  text : JSValue
  sender : Sender
  timestamp : Nat

/-- The three `useState` cells of `App`. -/
structure AppState where
  messages : List Message
  inputText : String
  isLoading : Bool

/-- One reading of the clock where a message is built: `Date.now()` for the id
and `new Date()` for the timestamp. -/
structure Reading where
  now : Nat
  date : Nat

/-- The constant `API_URL` of `config.js`. -/
def API_URL : String := "https://your-app-name.onrender.com"

/-- The request `fetch` is called with (lines 48–54). -/
structure Request where
  url : String
  method : String
  contentType : String
  query : String
  deriving DecidableEq, Repr

/-- The outcome of the two awaits of lines 48 and 56. -/
inductive FetchOutcome where
  | fetchRejected
  | jsonRejected
  | parsed (data : JSValue)

/-- The welcome message of lines 21–26. -/
def welcomeMessage (date : Nat) : Message :=
  { id := "1"
    text := .string "Welcome to IPC APP! ⚖️\n\nYour legal assistant for the Indian Penal Code 1860."
    sender := .bot
    timestamp := date }

/-- The initial state of `App` (lines 20–29). -/
def initialState (date : Nat) : AppState :=
  { messages := [welcomeMessage date], inputText := "", isLoading := false }

/-- The update `setMessages((prev) => [...prev, m])`. -/
def appendMessage (s : AppState) (m : Message) : AppState :=
  { s with messages := s.messages ++ [m] }

/-- The guard of line 33: true when `sendMessage` returns at once. -/
def rejects (s : AppState) : Bool :=
  jsTrim s.inputText == "" || s.isLoading

/-- The object `userMessage` of lines 35–40. -/
def userMessage (s : AppState) (r : Reading) : Message :=
  { id := toString r.now
    text := .string (jsTrim s.inputText)
    sender := .user
    timestamp := r.date }

/-- The request of lines 48–54 for the query of line 43. -/
def askRequest (query : String) : Request :=
  { url := API_URL ++ "/ask"
    method := "POST"
    contentType := "application/json"
    query := query }

/-- Lines 33–54 of `sendMessage`, up to the call of `fetch`: the state after
them and the request issued, `none` when the guard returns. -/
def sendMessageStart (s : AppState) (r : Reading) : AppState × Option Request :=
  if rejects s then (s, none)
  else
    let s1 := appendMessage s (userMessage s r)
    let query := jsTrim s.inputText
    let s2 := { s1 with inputText := "" }
    let s3 := { s2 with isLoading := true }
    (s3, some (askRequest query))

/-- The two awaits: `fetch` rejects, `response.json()` rejects, or `data` is
the parsed body. -/
def awaitData : FetchOutcome → Except JSError JSValue
  | .fetchRejected => .error .networkError
  | .jsonRejected => .error .syntaxError
  | .parsed data => .ok data

/-- The expression `data.answer || data.error || 'Sorry, something went wrong.'`
of line 60; `data.error` is read only when `data.answer` is falsy. -/
def botText (data : JSValue) : Except JSError JSValue := do
  let answer ← getProp data "answer"
  if answer.truthy then pure answer
  else
    let error ← getProp data "error"
    pure (jsOr error (.string "Sorry, something went wrong."))

/-- The body of the `try` block after the awaits (lines 56–65). -/
def tryBlock (s : AppState) (o : FetchOutcome) (r : Reading) : Except JSError AppState := do
  let data ← awaitData o
  let text ← botText data
  let botMessage : Message :=
    { id := toString (r.now + 1), text := text, sender := .bot, timestamp := r.date }
  pure (appendMessage s botMessage)

/-- The `catch` block (lines 66–73). -/
def catchBlock (s : AppState) (r : Reading) : Except JSError AppState :=
  let errorMessage : Message :=
    { id := toString (r.now + 1)
      text := .string "Unable to connect to server. Please check your internet connection."
      sender := .bot
      timestamp := r.date }
  pure (appendMessage s errorMessage)

/-- The `finally` block (lines 74–76). -/
def finallyBlock (s : AppState) : AppState :=
  { s with isLoading := false }

/-- The statement `try … catch … finally` over a state: an error of the body
goes to the handler, the cleanup runs on every path, and an error of the
handler is what the statement throws. -/
def tryCatchFinally {ε σ : Type} (body : Except ε σ) (handler : Except ε σ)
    (cleanup : σ → σ) : Except ε σ :=
  match body with
  | .ok s => .ok (cleanup s)
  | .error _ =>
    match handler with
    | .ok s => .ok (cleanup s)
    | .error e => .error e

/-- Lines 56–76 of `sendMessage`: what runs once the exchange has settled with
outcome `o`, on the state `s` of that moment. The reading `r` is the one the
appended message is built from. -/
def sendMessageResume (s : AppState) (o : FetchOutcome) (r : Reading) :
    Except JSError AppState :=
  tryCatchFinally (tryBlock s o r) (catchBlock s r) finallyBlock

/-- A whole run of `sendMessage` (lines 32–77) with nothing in between: the
final state and the request issued. -/
def sendMessage (s : AppState) (r : Reading) (o : FetchOutcome) (r2 : Reading) :
    Except JSError (AppState × Option Request) :=
  match sendMessageStart s r with
  | (s1, none) => .ok (s1, none)
  | (s1, some req) =>
    match sendMessageResume s1 o r2 with
    | .ok s2 => .ok (s2, some req)
    | .error e => .error e

/-! ## The chat screen as a transition system -/

/-- What can happen to the chat screen: the user edits the input field
(`onChangeText`), the user presses send (`onPress`, `onSubmitEditing`), or the
exchange in flight settles. -/
inductive Event where
  | typeText (text : String)
  | submit (r : Reading)
  | settle (o : FetchOutcome) (r : Reading)

/-- One step of the chat screen. An exchange is in flight exactly while
`isLoading` is true, so `settle` acts only then. -/
def step (s : AppState) : Event → AppState
  | .typeText text => { s with inputText := text }
  | .submit r => (sendMessageStart s r).1
  | .settle o r =>
    if s.isLoading then
      match sendMessageResume s o r with
      | .ok s1 => s1
      | .error _ => s
    else s

/-- The state after a sequence of events. -/
def run (s : AppState) (events : List Event) : AppState :=
  events.foldl step s

/-- The ids of the message list, the keys `keyExtractor` hands to the list view. -/
def messageIds (s : AppState) : List String :=
  s.messages.map Message.id

/-- The readings of `Date.now()` along a sequence of events, in order. -/
def clockReadings : List Event → List Nat
  | [] => []
  | .typeText _ :: rest => clockReadings rest
  | .submit r :: rest => r.now :: clockReadings rest
  | .settle _ r :: rest => r.now :: clockReadings rest

/-- The text of the last message of the list a run ended with. -/
def lastText (res : Except JSError AppState) : Option JSValue :=
  match res with
  | .ok s => s.messages.getLast?.map Message.text
  | .error _ => none

/-- Whether a parsed body is an object with a member called `key`. -/
def hasMember (data : JSValue) (key : String) : Bool :=
  match data with
  | .object members => members.any (fun kv => kv.1 == key)
  | _ => false

/-- A state with an exchange in flight: the initial screen after the user has
typed `hi` and pressed send at clock reading 1000. -/
def exampleInFlight : AppState :=
  (sendMessageStart { initialState 0 with inputText := "hi" } ⟨1000, 1000⟩).1

/-- The message the settled exchange appends: the bot message of the `try`
block when it completes, the error message of the `catch` block otherwise. -/
def settledMessage (o : FetchOutcome) (r : Reading) : Message :=
  match awaitData o >>= botText with
  | .ok text => { id := toString (r.now + 1), text := text, sender := .bot, timestamp := r.date }
  | .error _ =>
    { id := toString (r.now + 1)
      text := .string "Unable to connect to server. Please check your internet connection."
      sender := .bot
      timestamp := r.date }

/-- The number a string of decimal digits stands for. -/
def digitValue (cs : List Char) : Nat :=
  cs.foldl (fun acc c => 10 * acc + (c.toNat - 48)) 0

/-- The clock discipline under which every id issued is larger than all ids
issued before it, `bound` being the largest id so far: a submit reads the
clock above the bound, a settle reads it at or after the bound, and the bot id
`now + 1` is the next bound. -/
def spaced : Nat → List Event → Bool
  | _, [] => true
  | bound, .typeText _ :: rest => spaced bound rest
  | bound, .submit r :: rest => decide (bound < r.now) && spaced r.now rest
  | bound, .settle _ r :: rest => decide (bound ≤ r.now) && spaced (r.now + 1) rest

/-- The ids of a state are the decimal strings of a strictly increasing list of
numbers, none above `bound`. -/
def IdsBelow (bound : Nat) (s : AppState) : Prop :=
  ∃ ns : List Nat, messageIds s = ns.map (fun n => toString n) ∧
    ns.Pairwise (fun a b => a < b) ∧ ∀ n ∈ ns, n ≤ bound

/-! ## The asset generator (`generate-icon.js`) -/

/-- A value of `fillStyle`: a CSS colour, or a linear gradient made by
`createLinearGradient` with the stops added by `addColorStop`. -/
inductive Style where
  | color (css : String)
  | linearGradient (x0 y0 x1 y1 : ℚ) (stops : List (ℚ × String))
  deriving DecidableEq

/-- A value of `font`: weight, size in pixels, family. -/
structure Font where
  weight : String
  px : ℚ
  family : String
  deriving DecidableEq

/-- The calls on the 2D context and the assignments to its properties, in the
order they are made. The angles of `arc` are in units of `Math.PI`. -/
inductive Draw where
  | beginPath
  | closePath
  | fill
  | stroke
  | moveTo (x y : ℚ)
  | lineTo (x y : ℚ)
  | quadraticCurveTo (cpx cpy x y : ℚ)
  | arc (x y radius startAngle endAngle : ℚ)
  | roundRect (x y w h radius : ℚ)
  | fillRect (x y w h : ℚ)
  | fillStyle (style : Style)
  | strokeStyle (css : String)
  | lineWidth (w : ℚ)
  | lineCap (cap : String)
  | font (f : Font)
  | textAlign (a : String)
  | textBaseline (b : String)
  | fillText (text : String) (x y : ℚ)
  deriving DecidableEq

/-- Lines 10–21 of `generateIcon`: the rounded background. -/
def iconBackground (size : ℚ) : List Draw :=
  let gradient := Style.linearGradient 0 0 size size
    [(0, "#1a1a2e"), (0.5, "#16213e"), (1, "#0f3460")]
  let radius := size * 0.2
  [.beginPath, .roundRect 0 0 size size radius, .fillStyle gradient, .fill]

/-- Lines 23–47 of `generateIcon`: the shield, filled and bordered. -/
def iconShield (size : ℚ) : List Draw :=
  let centerX := size / 2
  let centerY := size / 2
  let shieldSize := size * 0.55
  let shieldGradient := Style.linearGradient (centerX - shieldSize / 2)
    (centerY - shieldSize / 2) (centerX + shieldSize / 2) (centerY + shieldSize / 2)
    [(0, "#e94560"), (1, "#ff6b6b")]
  [.beginPath,
   .moveTo centerX (centerY - shieldSize / 2),
   .lineTo (centerX + shieldSize / 2) (centerY - shieldSize / 3),
   .lineTo (centerX + shieldSize / 2) (centerY + shieldSize / 6),
   .quadraticCurveTo centerX (centerY + shieldSize / 2) centerX (centerY + shieldSize / 2),
   .quadraticCurveTo centerX (centerY + shieldSize / 2) (centerX - shieldSize / 2)
     (centerY + shieldSize / 6),
   .lineTo (centerX - shieldSize / 2) (centerY - shieldSize / 3),
   .closePath,
   .fillStyle shieldGradient,
   .fill,
   .strokeStyle "#ffffff",
   .lineWidth (size * 0.02),
   .stroke]

/-- Lines 49–92 of `generateIcon`: the balance scale (pole, bar, two pans, four
strings). -/
def iconScale (size : ℚ) : List Draw :=
  let centerX := size / 2
  let centerY := size / 2
  let scaleY := centerY - size * 0.05
  let scaleWidth := size * 0.25
  [.strokeStyle "#ffffff",
   .lineWidth (size * 0.025),
   .lineCap "round",
   .beginPath,
   .moveTo centerX (scaleY - size * 0.12),
   .lineTo centerX (scaleY + size * 0.15),
   .stroke,
   .beginPath,
   .moveTo (centerX - scaleWidth / 2) (scaleY - size * 0.08),
   .lineTo (centerX + scaleWidth / 2) (scaleY - size * 0.08),
   .stroke,
   .beginPath,
   .arc (centerX - scaleWidth / 2) (scaleY + size * 0.02) (size * 0.06) 0 1,
   .stroke,
   .beginPath,
   .arc (centerX + scaleWidth / 2) (scaleY + size * 0.02) (size * 0.06) 0 1,
   .stroke,
   .beginPath,
   .moveTo (centerX - scaleWidth / 2) (scaleY - size * 0.08),
   .lineTo (centerX - scaleWidth / 2 - size * 0.06) (scaleY + size * 0.02),
   .moveTo (centerX - scaleWidth / 2) (scaleY - size * 0.08),
   .lineTo (centerX - scaleWidth / 2 + size * 0.06) (scaleY + size * 0.02),
   .stroke,
   .beginPath,
   .moveTo (centerX + scaleWidth / 2) (scaleY - size * 0.08),
   .lineTo (centerX + scaleWidth / 2 - size * 0.06) (scaleY + size * 0.02),
   .moveTo (centerX + scaleWidth / 2) (scaleY - size * 0.08),
   .lineTo (centerX + scaleWidth / 2 + size * 0.06) (scaleY + size * 0.02),
   .stroke]

/-- Lines 94–99 of `generateIcon`: the label. -/
def iconLabel (size : ℚ) : List Draw :=
  let centerX := size / 2
  let centerY := size / 2
  [.fillStyle (.color "#ffffff"),
   .font { weight := "bold", px := size * 0.1, family := "Arial" },
   .textAlign "center",
   .textBaseline "middle",
   .fillText "IPC" centerX (centerY + size * 0.18)]

/-- The drawing calls of `generateIcon(size, filename)` on its `size` by `size`
canvas (lines 10–99), in order. -/
def generateIcon (size : ℚ) : List Draw :=
  iconBackground size ++ iconShield size ++ iconScale size ++ iconLabel size

/-- Lines 118–124 of `generateSplash`: the background. -/
def splashBackground : List Draw :=
  let gradient := Style.linearGradient 0 0 1284 2778
    [(0, "#1a1a2e"), (0.5, "#16213e"), (1, "#0f3460")]
  [.fillStyle gradient, .fillRect 0 0 1284 2778]

/-- Lines 126–149 of `generateSplash`: the shield. -/
def splashShield : List Draw :=
  let iconSize : ℚ := 400
  let centerX : ℚ := 1284 / 2
  let centerY : ℚ := 2778 / 2 - 100
  let shieldSize := iconSize * 0.55
  let shieldGradient := Style.linearGradient (centerX - shieldSize / 2)
    (centerY - shieldSize / 2) (centerX + shieldSize / 2) (centerY + shieldSize / 2)
    [(0, "#e94560"), (1, "#ff6b6b")]
  [.beginPath,
   .moveTo centerX (centerY - shieldSize / 2),
   .lineTo (centerX + shieldSize / 2) (centerY - shieldSize / 3),
   .lineTo (centerX + shieldSize / 2) (centerY + shieldSize / 6),
   .quadraticCurveTo centerX (centerY + shieldSize / 2) centerX (centerY + shieldSize / 2),
   .quadraticCurveTo centerX (centerY + shieldSize / 2) (centerX - shieldSize / 2)
     (centerY + shieldSize / 6),
   .lineTo (centerX - shieldSize / 2) (centerY - shieldSize / 3),
   .closePath,
   .fillStyle shieldGradient,
   .fill,
   .strokeStyle "#ffffff",
   .lineWidth 4,
   .stroke]

/-- Lines 151–175 of `generateSplash`: the scale (pole, bar, two pans). -/
def splashScale : List Draw :=
  let iconSize : ℚ := 400
  let centerX : ℚ := 1284 / 2
  let centerY : ℚ := 2778 / 2 - 100
  let scaleY := centerY - 20
  let scaleWidth := iconSize * 0.25
  [.strokeStyle "#ffffff",
   .lineWidth 8,
   .lineCap "round",
   .beginPath,
   .moveTo centerX (scaleY - 50),
   .lineTo centerX (scaleY + 60),
   .stroke,
   .beginPath,
   .moveTo (centerX - scaleWidth / 2) (scaleY - 30),
   .lineTo (centerX + scaleWidth / 2) (scaleY - 30),
   .stroke,
   .beginPath,
   .arc (centerX - scaleWidth / 2) (scaleY + 10) 25 0 1,
   .stroke,
   .beginPath,
   .arc (centerX + scaleWidth / 2) (scaleY + 10) 25 0 1,
   .stroke]

/-- Lines 177–181 of `generateSplash`: the label. -/
def splashLabel : List Draw :=
  let centerX : ℚ := 1284 / 2
  let centerY : ℚ := 2778 / 2 - 100
  [.fillStyle (.color "#ffffff"),
   .font { weight := "bold", px := 50, family := "Arial" },
   .textAlign "center",
   .fillText "IPC" centerX (centerY + 80)]

/-- Lines 183–190 of `generateSplash`: the app name and the subtitle. -/
def splashCaptions : List Draw :=
  let centerX : ℚ := 1284 / 2
  let centerY : ℚ := 2778 / 2 - 100
  [.fillStyle (.color "#ffffff"),
   .font { weight := "bold", px := 60, family := "Arial" },
   .fillText "IPC APP" centerX (centerY + 250),
   .font { weight := "", px := 30, family := "Arial" },
   .fillStyle (.color "rgba(255,255,255,0.7)"),
   .fillText "Indian Penal Code 1860" centerX (centerY + 310)]

/-- The drawing calls of `generateSplash()` on its 1284 by 2778 canvas (lines
118–190), in order. -/
def generateSplash : List Draw :=
  splashBackground ++ splashShield ++ splashScale ++ splashLabel ++ splashCaptions

/-- The shield, scale and label part of `generateIcon`. -/
def iconComposition (size : ℚ) : List Draw :=
  iconShield size ++ iconScale size ++ iconLabel size

/-- The shield, scale and label part of `generateSplash`. -/
def splashComposition : List Draw :=
  splashShield ++ splashScale ++ splashLabel

/-- A fill style moved by `(dx, dy)`. -/
def Style.translate (dx dy : ℚ) : Style → Style
  | .color css => .color css
  | .linearGradient x0 y0 x1 y1 stops =>
    .linearGradient (x0 + dx) (y0 + dy) (x1 + dx) (y1 + dy) stops

/-- A drawing call moved by `(dx, dy)`: positions shift; radii, widths, font
sizes and angles stay. -/
def Draw.translate (dx dy : ℚ) : Draw → Draw
  | .moveTo x y => .moveTo (x + dx) (y + dy)
  | .lineTo x y => .lineTo (x + dx) (y + dy)
  | .quadraticCurveTo cpx cpy x y => .quadraticCurveTo (cpx + dx) (cpy + dy) (x + dx) (y + dy)
  | .arc x y radius a0 a1 => .arc (x + dx) (y + dy) radius a0 a1
  | .roundRect x y w h radius => .roundRect (x + dx) (y + dy) w h radius
  | .fillRect x y w h => .fillRect (x + dx) (y + dy) w h
  | .fillStyle style => .fillStyle (style.translate dx dy)
  | .fillText text x y => .fillText text (x + dx) (y + dy)
  | other => other

/-- The composition of `generateIcon(size)` moved from the centre of the icon,
`(size / 2, size / 2)`, to the centre point of the splash, `(642, 1289)`. -/
def iconCompositionAtSplashCentre (size : ℚ) : List Draw :=
  (iconComposition size).map (Draw.translate (1284 / 2 - size / 2) (2778 / 2 - 100 - size / 2))

/-! ## Basic facts about the handler -/

theorem jsTrim_of_all_whiteSpace (t : String)
    (h : ∀ c ∈ t.toList, isJSWhiteSpace c = true) : jsTrim t = "" := by
  have h1 : t.toList.dropWhile isJSWhiteSpace = [] := by
    rw [List.dropWhile_eq_nil_iff]
    exact h
  unfold jsTrim
  rw [h1]
  rfl

theorem rejects_eq_false_iff (s : AppState) :
    rejects s = false ↔ jsTrim s.inputText ≠ "" ∧ s.isLoading = false := by
  simp [rejects]

theorem sendMessageStart_of_rejects (s : AppState) (r : Reading) (h : rejects s = true) :
    sendMessageStart s r = (s, none) := by
  simp [sendMessageStart, h]

theorem sendMessageStart_of_accepts (s : AppState) (r : Reading) (h : rejects s = false) :
    sendMessageStart s r =
      ({ messages := s.messages ++ [userMessage s r], inputText := "", isLoading := true },
        some (askRequest (jsTrim s.inputText))) := by
  simp [sendMessageStart, h, appendMessage]

theorem sendMessageResume_eq (s : AppState) (o : FetchOutcome) (r : Reading) :
    sendMessageResume s o r =
      .ok { messages := s.messages ++ [settledMessage o r]
            inputText := s.inputText
            isLoading := false } := by
  unfold sendMessageResume tryCatchFinally tryBlock catchBlock settledMessage
  cases h1 : awaitData o with
  | error e => simp [bind, Except.bind, pure, Except.pure, appendMessage, finallyBlock]
  | ok data =>
    cases h2 : botText data with
    | error e => simp [bind, Except.bind, h2, pure, Except.pure, appendMessage, finallyBlock]
    | ok text => simp [bind, Except.bind, h2, pure, Except.pure, appendMessage, finallyBlock]

theorem settledMessage_sender (o : FetchOutcome) (r : Reading) :
    (settledMessage o r).sender = .bot := by
  unfold settledMessage
  split <;> rfl

theorem settledMessage_id (o : FetchOutcome) (r : Reading) :
    (settledMessage o r).id = toString (r.now + 1) := by
  unfold settledMessage
  split <;> rfl

theorem lookupMember_of_not_any (key : String) (members : List (String × JSValue))
    (h : members.any (fun kv => kv.1 == key) = false) :
    lookupMember key members = .undefined := by
  have hnone : members.reverse.find? (fun kv => kv.1 == key) = none := by
    rw [List.find?_eq_none]
    intro kv hkv
    have hmem : kv ∈ members := List.mem_reverse.1 hkv
    intro hk
    have : members.any (fun kv => kv.1 == key) = true := List.any_eq_true.2 ⟨kv, hmem, hk⟩
    rw [h] at this
    exact Bool.noConfusion this
  unfold lookupMember
  rw [hnone]

theorem botText_object (members : List (String × JSValue)) :
    botText (.object members) =
      .ok (if (lookupMember "answer" members).truthy then lookupMember "answer" members
           else jsOr (lookupMember "error" members) (.string "Sorry, something went wrong.")) := by
  unfold botText getProp
  by_cases h : (lookupMember "answer" members).truthy = true
  · simp [bind, Except.bind, pure, Except.pure, h]
  · simp [bind, Except.bind, pure, Except.pure, h]

theorem botText_of_no_members (data : JSValue) (hnull : data ≠ .null)
    (hundef : data ≠ .undefined) (hanswer : hasMember data "answer" = false)
    (herror : hasMember data "error" = false) :
    botText data = .ok (.string "Sorry, something went wrong.") := by
  cases data with
  | undefined => exact absurd rfl hundef
  | null => exact absurd rfl hnull
  | object members =>
    rw [botText_object, lookupMember_of_not_any "answer" members hanswer,
      lookupMember_of_not_any "error" members herror]
    rfl
  | bool b => rfl
  | number n => rfl
  | string t => rfl
  | array items => rfl

theorem settledMessage_parsed (data text : JSValue) (r : Reading) (h : botText data = .ok text) :
    settledMessage (.parsed data) r =
      { id := toString (r.now + 1), text := text, sender := .bot, timestamp := r.date } := by
  simp [settledMessage, awaitData, bind, Except.bind, h]

theorem sendMessage_of_accepts (s : AppState) (r : Reading) (o : FetchOutcome) (r2 : Reading)
    (h : rejects s = false) :
    sendMessage s r o r2 =
      .ok ({ messages := (s.messages ++ [userMessage s r]) ++ [settledMessage o r2]
             inputText := ""
             isLoading := false },
           some (askRequest (jsTrim s.inputText))) := by
  unfold sendMessage
  rw [sendMessageStart_of_accepts s r h]
  simp only [sendMessageResume_eq]

theorem digitChar_value (d : Nat) (h : d < 10) : (Nat.digitChar d).toNat - 48 = d := by
  interval_cases d <;> rfl

theorem toDigitsCore_spec (fuel : Nat) : ∀ (n : Nat) (ds : List Char), n < fuel →
    ∃ front, Nat.toDigitsCore 10 fuel n ds = front ++ ds ∧ digitValue front = n := by
  induction fuel with
  | zero => intro n ds h; exact absurd h (Nat.not_lt_zero n)
  | succ fuel ih =>
    intro n ds h
    unfold Nat.toDigitsCore
    by_cases h0 : n / 10 = 0
    · simp only [h0, if_true]
      refine ⟨[Nat.digitChar (n % 10)], rfl, ?_⟩
      have hlt : n < 10 := by omega
      rw [Nat.mod_eq_of_lt hlt]
      simp [digitValue, digitChar_value n hlt]
    · simp only [h0, if_false]
      have hlt : n / 10 < fuel := by omega
      obtain ⟨front, hfront, hval⟩ := ih (n / 10) (Nat.digitChar (n % 10) :: ds) hlt
      refine ⟨front ++ [Nat.digitChar (n % 10)], ?_, ?_⟩
      · rw [hfront]; simp
      · simp only [digitValue, List.foldl_append, List.foldl_cons, List.foldl_nil]
        have hv : List.foldl (fun acc c => 10 * acc + (c.toNat - 48)) 0 front = n / 10 := hval
        rw [hv, digitChar_value (n % 10) (Nat.mod_lt _ (by norm_num))]
        omega

theorem digitValue_toString (n : Nat) : digitValue (toString n).toList = n := by
  obtain ⟨front, hfront, hval⟩ := toDigitsCore_spec (n + 1) n [] (Nat.lt_succ_self n)
  have : (toString n).toList = front := by
    show (Nat.repr n).toList = front
    unfold Nat.repr Nat.toDigits
    rw [hfront]
    simp [List.asString]
  rw [this, hval]

theorem toString_nat_injective : Function.Injective (fun n : Nat => toString n) := by
  intro a b h
  have h2 : digitValue (toString a).toList = digitValue (toString b).toList := by
    simp only at h
    rw [h]
  rwa [digitValue_toString, digitValue_toString] at h2

theorem idsBelow_mono {b c : Nat} {s : AppState} (h : IdsBelow b s) (hbc : b ≤ c) :
    IdsBelow c s := by
  obtain ⟨ns, hids, hsorted, hle⟩ := h
  exact ⟨ns, hids, hsorted, fun n hn => le_trans (hle n hn) hbc⟩

theorem idsBelow_append {b : Nat} {s : AppState} (h : IdsBelow b s) (m : Message) (n : Nat)
    (hid : m.id = toString n) (hbn : b < n) (text : String) (busy : Bool) :
    IdsBelow n { messages := s.messages ++ [m], inputText := text, isLoading := busy } := by
  obtain ⟨ns, hids, hsorted, hle⟩ := h
  refine ⟨ns ++ [n], ?_, ?_, ?_⟩
  · have hids2 : s.messages.map Message.id = ns.map (fun n => toString n) := hids
    simp [messageIds, hids2, hid]
  · rw [List.pairwise_append]
    refine ⟨hsorted, List.pairwise_singleton _ _, ?_⟩
    intro a ha c hc
    rw [List.mem_singleton] at hc
    rw [hc]
    exact lt_of_le_of_lt (hle a ha) hbn
  · intro a ha
    rw [List.mem_append, List.mem_singleton] at ha
    rcases ha with ha | ha
    · exact le_of_lt (lt_of_le_of_lt (hle a ha) hbn)
    · rw [ha]

theorem idsBelow_nodup {b : Nat} {s : AppState} (h : IdsBelow b s) : (messageIds s).Nodup := by
  obtain ⟨ns, hids, hsorted, _⟩ := h
  rw [hids]
  exact List.Nodup.map toString_nat_injective (hsorted.imp (fun hab => ne_of_lt hab))

theorem idsBelow_run (events : List Event) : ∀ (b : Nat) (s : AppState),
    IdsBelow b s → spaced b events = true → ∃ c, IdsBelow c (run s events) := by
  induction events with
  | nil => intro b s h _; exact ⟨b, h⟩
  | cons e rest ih =>
    intro b s h hsp
    cases e with
    | typeText text =>
      refine ih b _ ?_ hsp
      obtain ⟨ns, hids, hrest⟩ := h
      exact ⟨ns, hids, hrest⟩
    | submit r =>
      simp only [spaced, Bool.and_eq_true, decide_eq_true_eq] at hsp
      refine ih r.now _ ?_ hsp.2
      show IdsBelow r.now (sendMessageStart s r).1
      cases hrej : rejects s with
      | true =>
        rw [sendMessageStart_of_rejects s r hrej]
        exact idsBelow_mono h (le_of_lt hsp.1)
      | false =>
        rw [sendMessageStart_of_accepts s r hrej]
        exact idsBelow_append h (userMessage s r) r.now rfl hsp.1 _ _
    | settle o r =>
      simp only [spaced, Bool.and_eq_true, decide_eq_true_eq] at hsp
      refine ih (r.now + 1) _ ?_ hsp.2
      show IdsBelow (r.now + 1) (step s (.settle o r))
      unfold step
      by_cases hl : s.isLoading = true
      · simp only [hl, if_true, sendMessageResume_eq]
        exact idsBelow_append h (settledMessage o r) (r.now + 1) (settledMessage_id o r)
          (Nat.lt_succ_of_le hsp.1) _ _
      · simp only [hl]
        exact idsBelow_mono h (le_trans hsp.1 (Nat.le_succ _))

theorem idsBelow_initial (date : Nat) : IdsBelow 1 (initialState date) :=
  ⟨[1], rfl, List.pairwise_singleton _ _, fun n hn => by
    rw [List.mem_singleton] at hn
    rw [hn]⟩

/-! ## The contract of `sendMessage` -/

/-- C1: from a state that is not busy and whose input text is non-empty after
trimming, `sendMessage` appends one user message before the request is issued
and, whatever the outcome of the exchange, one bot message after it: the list
ends two entries longer. -/
theorem sendMessage_appends_user_then_bot (s : AppState) (r : Reading)
    (hbusy : s.isLoading = false) (htext : jsTrim s.inputText ≠ "") :
    ∃ u : Message, u.sender = .user ∧
      (sendMessageStart s r).1.messages = s.messages ++ [u] ∧
      (sendMessageStart s r).2 = some (askRequest (jsTrim s.inputText)) ∧
      ∀ (o : FetchOutcome) (r2 : Reading), ∃ (b : Message) (s2 : AppState),
        b.sender = .bot ∧
        sendMessage s r o r2 = .ok (s2, some (askRequest (jsTrim s.inputText))) ∧
        s2.messages = s.messages ++ [u, b] ∧
        s2.messages.length = s.messages.length + 2 := by
  have hacc : rejects s = false := (rejects_eq_false_iff s).2 ⟨htext, hbusy⟩
  refine ⟨userMessage s r, rfl, ?_, ?_, ?_⟩
  · rw [sendMessageStart_of_accepts s r hacc]
  · rw [sendMessageStart_of_accepts s r hacc]
  · intro o r2
    refine ⟨settledMessage o r2,
      { messages := (s.messages ++ [userMessage s r]) ++ [settledMessage o r2]
        inputText := ""
        isLoading := false },
      settledMessage_sender o r2, ?_, ?_, ?_⟩
    · exact sendMessage_of_accepts s r o r2 hacc
    · simp
    · simp

/-- The statement of C1 at the initial screen with ` hi ` typed. -/
theorem sendMessage_appends_user_then_bot_witness :
    ∃ u : Message, u.sender = .user ∧
      (sendMessageStart { initialState 0 with inputText := " hi " } ⟨1000, 1000⟩).1.messages
        = (initialState 0).messages ++ [u] ∧
      (sendMessageStart { initialState 0 with inputText := " hi " } ⟨1000, 1000⟩).2
        = some (askRequest "hi") ∧
      ∀ (o : FetchOutcome) (r2 : Reading), ∃ (b : Message) (s2 : AppState),
        b.sender = .bot ∧
        sendMessage { initialState 0 with inputText := " hi " } ⟨1000, 1000⟩ o r2
          = .ok (s2, some (askRequest "hi")) ∧
        s2.messages = (initialState 0).messages ++ [u, b] ∧
        s2.messages.length = (initialState 0).messages.length + 2 :=
  sendMessage_appends_user_then_bot { initialState 0 with inputText := " hi " } ⟨1000, 1000⟩
    rfl (by decide)

/-- C2: when the input text is empty or all white space, or the busy flag is
set, `sendMessage` returns at once: the state (message list, input text, busy
flag) is unchanged and no request is issued. -/
theorem sendMessage_noop (s : AppState) (r : Reading) (o : FetchOutcome) (r2 : Reading)
    (h : (∀ c ∈ s.inputText.toList, isJSWhiteSpace c = true) ∨ s.isLoading = true) :
    sendMessageStart s r = (s, none) ∧ sendMessage s r o r2 = .ok (s, none) := by
  have hrej : rejects s = true := by
    rcases h with h | h
    · simp [rejects, jsTrim_of_all_whiteSpace _ h]
    · simp [rejects, h]
  have hstart := sendMessageStart_of_rejects s r hrej
  refine ⟨hstart, ?_⟩
  unfold sendMessage
  rw [hstart]

/-- The statement of C2 at the initial screen with only white space typed. -/
theorem sendMessage_noop_witness :
    sendMessageStart { initialState 0 with inputText := " \t\n" } ⟨1000, 1000⟩
        = ({ initialState 0 with inputText := " \t\n" }, none) ∧
      sendMessage { initialState 0 with inputText := " \t\n" } ⟨1000, 1000⟩
        (.parsed (.object [("answer", .string "42 months")])) ⟨2000, 2000⟩
        = .ok ({ initialState 0 with inputText := " \t\n" }, none) :=
  sendMessage_noop { initialState 0 with inputText := " \t\n" } ⟨1000, 1000⟩
    (.parsed (.object [("answer", .string "42 months")])) ⟨2000, 2000⟩
    (Or.inl (by decide))

/-- C3, amended: when the parsed body is an object whose `answer` member is a
non-empty string, the bot message appended has exactly that string as its
text, whatever the `error` member is. -/
theorem answer_becomes_bot_text (s : AppState) (members : List (String × JSValue))
    (a : String) (r : Reading)
    (hanswer : lookupMember "answer" members = .string a) (hne : a ≠ "") :
    sendMessageResume s (.parsed (.object members)) r =
      .ok { messages := s.messages ++
              [{ id := toString (r.now + 1), text := .string a, sender := .bot,
                 timestamp := r.date }]
            inputText := s.inputText
            isLoading := false } := by
  have htext : botText (.object members) = .ok (.string a) := by
    rw [botText_object, hanswer]
    simp [JSValue.truthy, hne]
  rw [sendMessageResume_eq, settledMessage_parsed _ _ r htext]

/-- The amended C3 at the body `{"answer": "42 months", "error": "ignored"}`. -/
theorem answer_becomes_bot_text_witness :
    sendMessageResume exampleInFlight
        (.parsed (.object [("answer", .string "42 months"), ("error", .string "ignored")]))
        ⟨2000, 2000⟩ =
      .ok { messages := exampleInFlight.messages ++
              [{ id := toString (2000 + 1), text := .string "42 months", sender := .bot,
                 timestamp := 2000 }]
            inputText := exampleInFlight.inputText
            isLoading := false } :=
  answer_becomes_bot_text exampleInFlight
    [("answer", .string "42 months"), ("error", .string "ignored")] "42 months" ⟨2000, 2000⟩
    rfl (by decide)

/-- C3 as stated fails: for the body `{"answer": ""}` the `answer` member is the
empty string, and the bot message carries the fallback text, not the answer. -/
theorem empty_answer_not_shown :
    lookupMember "answer" [("answer", JSValue.string "")] = .string "" ∧
    lastText (sendMessageResume exampleInFlight
        (.parsed (.object [("answer", .string "")])) ⟨2000, 2000⟩)
      = some (.string "Sorry, something went wrong.") ∧
    lastText (sendMessageResume exampleInFlight
        (.parsed (.object [("answer", .string "")])) ⟨2000, 2000⟩)
      ≠ some (.string "") := by
  refine ⟨rfl, rfl, ?_⟩
  intro h
  have h2 : some (JSValue.string "Sorry, something went wrong.") = some (JSValue.string "") := h
  simp at h2

/-- C4, amended: when the parsed body is an object without an `answer` member
whose `error` member is a non-empty string, the bot message appended has
exactly that string as its text. -/
theorem error_becomes_bot_text (s : AppState) (members : List (String × JSValue))
    (e : String) (r : Reading)
    (hanswer : hasMember (.object members) "answer" = false)
    (herror : lookupMember "error" members = .string e) (hne : e ≠ "") :
    sendMessageResume s (.parsed (.object members)) r =
      .ok { messages := s.messages ++
              [{ id := toString (r.now + 1), text := .string e, sender := .bot,
                 timestamp := r.date }]
            inputText := s.inputText
            isLoading := false } := by
  have htext : botText (.object members) = .ok (.string e) := by
    rw [botText_object, lookupMember_of_not_any "answer" members hanswer, herror]
    simp [JSValue.truthy, jsOr, hne]
  rw [sendMessageResume_eq, settledMessage_parsed _ _ r htext]

/-- The amended C4 at the body `{"error": "bad query"}`. -/
theorem error_becomes_bot_text_witness :
    sendMessageResume exampleInFlight
        (.parsed (.object [("error", .string "bad query")])) ⟨2000, 2000⟩ =
      .ok { messages := exampleInFlight.messages ++
              [{ id := toString (2000 + 1), text := .string "bad query", sender := .bot,
                 timestamp := 2000 }]
            inputText := exampleInFlight.inputText
            isLoading := false } :=
  error_becomes_bot_text exampleInFlight [("error", .string "bad query")] "bad query"
    ⟨2000, 2000⟩ rfl rfl (by decide)

/-- C4 as stated fails: for the body `{"error": ""}` there is no `answer`
member, the `error` member is the empty string, and the bot message carries
the fallback text, not the error text. -/
theorem empty_error_not_shown :
    hasMember (.object [("error", JSValue.string "")]) "answer" = false ∧
    lookupMember "error" [("error", JSValue.string "")] = .string "" ∧
    lastText (sendMessageResume exampleInFlight
        (.parsed (.object [("error", .string "")])) ⟨2000, 2000⟩)
      = some (.string "Sorry, something went wrong.") ∧
    lastText (sendMessageResume exampleInFlight
        (.parsed (.object [("error", .string "")])) ⟨2000, 2000⟩)
      ≠ some (.string "") := by
  refine ⟨rfl, rfl, rfl, ?_⟩
  intro h
  have h2 : some (JSValue.string "Sorry, something went wrong.") = some (JSValue.string "") := h
  simp at h2

/-- C5, amended: when the parsed body is any JSON value other than `null` and
has neither an `answer` nor an `error` member (an object without them, a
boolean, a number, a string, an array), the bot message appended has the text
"Sorry, something went wrong.". -/
theorem fallback_when_no_members (s : AppState) (data : JSValue) (r : Reading)
    (hnull : data ≠ .null) (hundef : data ≠ .undefined)
    (hanswer : hasMember data "answer" = false) (herror : hasMember data "error" = false) :
    sendMessageResume s (.parsed data) r =
      .ok { messages := s.messages ++
              [{ id := toString (r.now + 1), text := .string "Sorry, something went wrong.",
                 sender := .bot, timestamp := r.date }]
            inputText := s.inputText
            isLoading := false } := by
  rw [sendMessageResume_eq,
    settledMessage_parsed _ _ r (botText_of_no_members data hnull hundef hanswer herror)]

/-- The amended C5 at the empty object. -/
theorem fallback_when_no_members_witness :
    sendMessageResume exampleInFlight (.parsed (.object [])) ⟨2000, 2000⟩ =
      .ok { messages := exampleInFlight.messages ++
              [{ id := toString (2000 + 1), text := .string "Sorry, something went wrong.",
                 sender := .bot, timestamp := 2000 }]
            inputText := exampleInFlight.inputText
            isLoading := false } :=
  fallback_when_no_members exampleInFlight (.object []) ⟨2000, 2000⟩
    (fun h => JSValue.noConfusion h) (fun h => JSValue.noConfusion h) rfl rfl

/-- C5 as stated fails: the body `null` parses as JSON and has neither member,
the read `data.answer` throws a TypeError inside the `try` block, and the bot
message carries the text of the `catch` block, not the fallback text. -/
theorem null_body_not_fallback :
    hasMember .null "answer" = false ∧ hasMember .null "error" = false ∧
    botText .null = .error .typeError ∧
    lastText (sendMessageResume exampleInFlight (.parsed .null) ⟨2000, 2000⟩)
      = some (.string "Unable to connect to server. Please check your internet connection.") ∧
    lastText (sendMessageResume exampleInFlight (.parsed .null) ⟨2000, 2000⟩)
      ≠ some (.string "Sorry, something went wrong.") := by
  refine ⟨rfl, rfl, rfl, rfl, ?_⟩
  intro h
  have h2 : some (JSValue.string
      "Unable to connect to server. Please check your internet connection.")
      = some (JSValue.string "Sorry, something went wrong.") := h
  simp at h2

/-- C6: for an accepted submission whose `fetch` rejects or whose
`response.json()` rejects, the `try` block throws, `sendMessage` still
completes normally, and the bot message it appends has the text "Unable to
connect to server. Please check your internet connection.". -/
theorem transport_failure_swallowed (s : AppState) (r : Reading) (o : FetchOutcome)
    (r2 : Reading) (hacc : rejects s = false)
    (ho : o = .fetchRejected ∨ o = .jsonRejected) :
    (∃ e, tryBlock (sendMessageStart s r).1 o r2 = .error e) ∧
    sendMessage s r o r2 =
      .ok ({ messages := s.messages ++
               [userMessage s r,
                { id := toString (r2.now + 1)
                  text := .string
                    "Unable to connect to server. Please check your internet connection."
                  sender := .bot
                  timestamp := r2.date }]
             inputText := ""
             isLoading := false },
           some (askRequest (jsTrim s.inputText))) := by
  constructor
  · rcases ho with ho | ho
    · exact ⟨.networkError, by rw [ho]; rfl⟩
    · exact ⟨.syntaxError, by rw [ho]; rfl⟩
  · rw [sendMessage_of_accepts s r o r2 hacc]
    rcases ho with ho | ho <;> rw [ho] <;> simp [settledMessage, awaitData, bind, Except.bind]

/-- The statement of C6 at a rejected `fetch`. -/
theorem transport_failure_swallowed_witness :
    (∃ e, tryBlock (sendMessageStart { initialState 0 with inputText := "hi" } ⟨1000, 1000⟩).1
        .fetchRejected ⟨2000, 2000⟩ = .error e) ∧
    sendMessage { initialState 0 with inputText := "hi" } ⟨1000, 1000⟩ .fetchRejected
        ⟨2000, 2000⟩ =
      .ok ({ messages := (initialState 0).messages ++
               [userMessage { initialState 0 with inputText := "hi" } ⟨1000, 1000⟩,
                { id := toString (2000 + 1)
                  text := .string
                    "Unable to connect to server. Please check your internet connection."
                  sender := .bot
                  timestamp := 2000 }]
             inputText := ""
             isLoading := false },
           some (askRequest (jsTrim "hi"))) :=
  transport_failure_swallowed { initialState 0 with inputText := "hi" } ⟨1000, 1000⟩
    .fetchRejected ⟨2000, 2000⟩ (by decide) (Or.inl rfl)

/-- C7: an accepted submission sets the busy flag, and once the exchange has
concluded the flag is false, whatever the outcome and whatever was typed in
the meantime. -/
theorem busy_flag_set_then_cleared (s : AppState) (r : Reading) (hacc : rejects s = false) :
    (sendMessageStart s r).1.isLoading = true ∧
    (∀ (o : FetchOutcome) (r2 : Reading), ∃ s2 req,
      sendMessage s r o r2 = .ok (s2, req) ∧ s2.isLoading = false) ∧
    (∀ (typed : String) (o : FetchOutcome) (r2 : Reading), ∃ s2,
      sendMessageResume { (sendMessageStart s r).1 with inputText := typed } o r2 = .ok s2 ∧
      s2.isLoading = false) := by
  refine ⟨?_, ?_, ?_⟩
  · rw [sendMessageStart_of_accepts s r hacc]
  · intro o r2
    exact ⟨_, _, sendMessage_of_accepts s r o r2 hacc, rfl⟩
  · intro typed o r2
    exact ⟨_, sendMessageResume_eq _ o r2, rfl⟩

/-- The statement of C7 at the initial screen with `hi` typed. -/
theorem busy_flag_set_then_cleared_witness :
    (sendMessageStart { initialState 0 with inputText := "hi" } ⟨1000, 1000⟩).1.isLoading
      = true ∧
    (∀ (o : FetchOutcome) (r2 : Reading), ∃ s2 req,
      sendMessage { initialState 0 with inputText := "hi" } ⟨1000, 1000⟩ o r2
        = .ok (s2, req) ∧ s2.isLoading = false) ∧
    (∀ (typed : String) (o : FetchOutcome) (r2 : Reading), ∃ s2,
      sendMessageResume
        { (sendMessageStart { initialState 0 with inputText := "hi" } ⟨1000, 1000⟩).1 with
          inputText := typed } o r2 = .ok s2 ∧
      s2.isLoading = false) :=
  busy_flag_set_then_cleared { initialState 0 with inputText := "hi" } ⟨1000, 1000⟩
    (by decide)

/-- C8: the message list is append-only: whatever the state and whatever the
step (typing, a rejected or an accepted submit, an exchange settling with a
response or with a failure), the list before the step is an initial segment of
the list after it. -/
theorem messages_append_only (s : AppState) (e : Event) :
    s.messages <+: (step s e).messages := by
  cases e with
  | typeText text => exact List.prefix_refl _
  | submit r =>
    show s.messages <+: (sendMessageStart s r).1.messages
    cases h : rejects s with
    | true => rw [sendMessageStart_of_rejects s r h]
    | false =>
      rw [sendMessageStart_of_accepts s r h]
      exact List.prefix_append _ _
  | settle o r =>
    unfold step
    by_cases hl : s.isLoading = true
    · simp only [hl, if_true, sendMessageResume_eq]
      exact List.prefix_append _ _
    · simp only [hl]
      exact List.prefix_refl _

/-- C9, amended: in every state reached from the initial state by a sequence
of events whose clock readings are spaced (the first submit reads the clock
above 1, every settle reads it no earlier than its submit, and every later
submit reads it above the previous settle reading plus one), no two messages
of the list have the same id. -/
theorem ids_unique_when_spaced (date : Nat) (events : List Event)
    (h : spaced 1 events = true) :
    (messageIds (run (initialState date) events)).Nodup := by
  obtain ⟨c, hc⟩ := idsBelow_run events 1 (initialState date) (idsBelow_initial date) h
  exact idsBelow_nodup hc

/-- The amended C9 at two exchanges two milliseconds apart. -/
theorem ids_unique_when_spaced_witness :
    (messageIds (run (initialState 0)
      [.typeText "a", .submit ⟨1000, 1000⟩,
       .settle (.parsed (.object [("answer", .string "x")])) ⟨1000, 1000⟩,
       .typeText "b", .submit ⟨1002, 1002⟩, .settle .fetchRejected ⟨1002, 1002⟩])).Nodup :=
  ids_unique_when_spaced 0
    [.typeText "a", .submit ⟨1000, 1000⟩,
     .settle (.parsed (.object [("answer", .string "x")])) ⟨1000, 1000⟩,
     .typeText "b", .submit ⟨1002, 1002⟩, .settle .fetchRejected ⟨1002, 1002⟩]
    (by decide)

/-- C9 as stated fails: with the clock readings 1000, 1000, 1001, which never
decrease, the bot message of the first exchange and the user message of the
second submission both get the id 1001. -/
theorem ids_collide_one_ms_later :
    (clockReadings
      [.typeText "a", .submit ⟨1000, 1000⟩,
       .settle (.parsed (.object [("answer", .string "x")])) ⟨1000, 1000⟩,
       .typeText "b", .submit ⟨1001, 1001⟩]).Pairwise (fun a b => a ≤ b) ∧
    messageIds (run (initialState 0)
      [.typeText "a", .submit ⟨1000, 1000⟩,
       .settle (.parsed (.object [("answer", .string "x")])) ⟨1000, 1000⟩,
       .typeText "b", .submit ⟨1001, 1001⟩]) = ["1", "1000", "1001", "1001"] ∧
    ¬ (messageIds (run (initialState 0)
      [.typeText "a", .submit ⟨1000, 1000⟩,
       .settle (.parsed (.object [("answer", .string "x")])) ⟨1000, 1000⟩,
       .typeText "b", .submit ⟨1001, 1001⟩])).Nodup := by
  refine ⟨by decide, by decide, by decide⟩

/-! ## The splash screen against the icon -/

/-- C10, the code against the claim: for no size does the shield, scale and
label sequence of `generateSplash` equal that of `generateIcon`, moved to the
centre of the splash; the splash issues 34 calls and the icon 47, the four
strings and `textBaseline` having no counterpart in the splash. -/
theorem splash_composition_differs (size : ℚ) :
    splashComposition.length = 34 ∧ (iconCompositionAtSplashCentre size).length = 47 ∧
    splashComposition ≠ iconCompositionAtSplashCentre size := by
  have h1 : splashComposition.length = 34 := rfl
  have h2 : (iconCompositionAtSplashCentre size).length = 47 := by
    simp [iconCompositionAtSplashCentre, iconComposition, iconShield, iconScale, iconLabel]
  refine ⟨h1, h2, ?_⟩
  intro h
  rw [h, h2] at h1
  exact absurd h1 (by decide)

/-- What the splash shares with the icon at size 400: the outline and the
fill of the shield, moved to the centre of the splash. -/
theorem splash_shield_outline_matches :
    splashShield.take 10 = (iconCompositionAtSplashCentre 400).take 10 := by
  simp only [splashShield, iconCompositionAtSplashCentre, iconComposition, iconShield,
    List.map_append, List.map_cons, List.map_nil, Draw.translate, Style.translate]
  norm_num

/-- Where the splash departs from the icon at size 400: the border width, the
stroke width of the scale, the top of the pole, the height of the bar, the
height and radius of the pans, and the size, baseline and height of the label. -/
theorem splash_measures_differ_at_400 :
    (splashComposition.get? 11 = some (.lineWidth 4) ∧
      (iconCompositionAtSplashCentre 400).get? 11 = some (.lineWidth 8)) ∧
    (splashComposition.get? 14 = some (.lineWidth 8) ∧
      (iconCompositionAtSplashCentre 400).get? 14 = some (.lineWidth 10)) ∧
    (splashComposition.get? 17 = some (.moveTo 642 1219) ∧
      (iconCompositionAtSplashCentre 400).get? 17 = some (.moveTo 642 1221)) ∧
    (splashComposition.get? 21 = some (.moveTo 592 1239) ∧
      (iconCompositionAtSplashCentre 400).get? 21 = some (.moveTo 592 1237)) ∧
    (splashComposition.get? 25 = some (.arc 592 1279 25 0 1) ∧
      (iconCompositionAtSplashCentre 400).get? 25 = some (.arc 592 1277 24 0 1)) ∧
    (splashComposition.get? 30 = some (.fillStyle (.color "#ffffff")) ∧
      (iconCompositionAtSplashCentre 400).get? 30 = some .beginPath) ∧
    (splashComposition.get? 33 = some (.fillText "IPC" 642 1369) ∧
      (iconCompositionAtSplashCentre 400).get? 46 = some (.fillText "IPC" 642 1361)) ∧
    (splashComposition.get? 31
        = some (.font { weight := "bold", px := 50, family := "Arial" }) ∧
      (iconCompositionAtSplashCentre 400).get? 43
        = some (.font { weight := "bold", px := 40, family := "Arial" })) := by
  simp only [splashComposition, splashShield, splashScale, splashLabel,
    iconCompositionAtSplashCentre, iconComposition, iconShield, iconScale, iconLabel,
    List.map_append, List.map_cons, List.map_nil, Draw.translate, Style.translate,
    List.cons_append, List.nil_append, List.get?]
  norm_num

end IPC
